import Mathlib

/-!
Shallow embedding of `src/twitter_bot.py` (erikoterochio/wpanews).

Python text (sequences of code points) is modelled as `List Char`; Python
`int` as `Int`; `None`-able fields as `Option`; the spreadsheet as a
`List (List Str)` of rows of cells.  The external collaborators (news
provider, Twitter client, NLP summarizer/tagger) are passed in as explicit
parameters, as the spec treats them as external services.
-/

namespace WpaNews

/-- Python strings, as sequences of code points. -/
abbrev Str := List Char

/-- Turn a Lean string literal into the `List Char` model of a Python string. -/
def str (s : String) : Str := s.data

/-- A `datetime` value as used by the bot: `date()` compares the
`(year, month, day)` triple and `.month` is the month-of-year number. -/
structure DT where
  year : Int
  month : Int
  day : Int
  hour : Int
  minute : Int
  second : Int
deriving DecidableEq

/-- The `(year, month, day)` triple returned by Python `datetime.date()`. -/
def DT.date (t : DT) : Int × Int × Int := (t.year, t.month, t.day)

/-- The bot's state dictionary (`data` in the source).  The timestamp field is
a raw cell (`Str`) right after `load_data` and a parsed `DT` in the posting
code, so the structure is parametric in the timestamp type. -/
structure BotData (τ : Type) where
  posted_articles : List Str
  news_api_requests : Int
  tweets_today : Int
  tweets_this_month : Int
  last_tweet_time : Option τ
deriving DecidableEq

/-- A NewsAPI article; `article.get(key, "")` defaults a missing key to the
empty string, so each field is simply a `Str`. -/
structure Article where
  title : Str
  description : Str
  content : Str
  url : Str
deriving DecidableEq

/-- The apostrophe character (code point 39), spelled out by code. -/
def apos : Char := Char.ofNat 39

/-- The provider-side takedown sentinel checked in `is_valid_article`. -/
def removed_marker : Str := str "[Removed]"

/-- The cookie-consent boilerplate marker checked in `is_valid_article`:
the source literal is `If you click 'Accept all', we and our partners`. -/
def cookie_marker : Str :=
  str "If you click " ++ [apos] ++ str "Accept all" ++ [apos] ++
    str ", we and our partners"

/-- Whether the first list is an initial segment of the second. -/
def leadsWith : Str → Str → Bool
  | [], _ => true
  | _ :: _, [] => false
  | c :: cs, d :: ds => c == d && leadsWith cs ds

/-- Python `needle in haystack` on strings: contiguous substring test. -/
def occursIn (needle : Str) : Str → Bool
  | [] => needle.isEmpty
  | c :: rest => leadsWith needle (c :: rest) || occursIn needle rest

/-- Model of `is_valid_article(article, posted_articles)`: rejects
empty title/description/content, already-posted urls, takedown sentinels in
the title, and cookie boilerplate in description or content. -/
def is_valid_article (article : Article) (posted_articles : List Str) : Bool :=
  if article.title.isEmpty || article.description.isEmpty
      || article.content.isEmpty || posted_articles.contains article.url then
    false
  else if occursIn removed_marker article.title then
    false
  else if occursIn cookie_marker article.description
      || occursIn cookie_marker article.content then
    false
  else
    true

/-- Python `s.isdigit()` on the model (ASCII digits, empty string is false). -/
def isDigitStr (s : Str) : Bool := !s.isEmpty && s.all Char.isDigit

/-- Value of `int(s)` on a digit string. -/
def digitsToNat (s : Str) : Nat := s.foldl (fun n c => 10 * n + (c.toNat - 48)) 0

/-- The defensive counter parse used by `load_data`:
`int(cell) if cell.isdigit() else 0`. -/
def parseCounter (s : Str) : Int := if isDigitStr s then (digitsToNat s : Int) else 0

/-- The schema header row (`expected_headers` in `load_data`). -/
def expected_headers : List Str :=
  [str "url", str "timestamp", str "news_api_requests", str "tweets_today",
   str "tweets_this_month", str "last_tweet_time"]

/-- The all-zero state returned when the sheet is empty, header-only, or when
processing its rows raises. -/
def zeroLoaded : BotData Str :=
  { posted_articles := []
    news_api_requests := 0
    tweets_today := 0
    tweets_this_month := 0
    last_tweet_time := none }

/-- Sequencing of Python expressions that can raise (`IndexError`) inside the
list comprehension `[row[url_index] for row in data if row[url_index]]`:
every cell access must be in bounds or the whole load falls back. -/
def cellsAt (i : Nat) : List (List Str) → Option (List Str)
  | [] => some []
  | row :: rows =>
    match row.get? i, cellsAt i rows with
    | some c, some cs => some (c :: cs)
    | _, _ => none

/-- The `try` body of `load_data`: column lookups (`headers.index(...)`,
raising if absent), the url comprehension, and the last-row field reads, any
failure of which sends `load_data` to its `except` fallback. -/
def load_core (headers : List Str) (data : List (List Str)) : Option (BotData Str) :=
  (headers.indexOf? (str "url")).bind fun url_index =>
  (headers.indexOf? (str "news_api_requests")).bind fun req_index =>
  (headers.indexOf? (str "tweets_today")).bind fun today_index =>
  (headers.indexOf? (str "tweets_this_month")).bind fun month_index =>
  (headers.indexOf? (str "last_tweet_time")).bind fun last_index =>
  (cellsAt url_index data).bind fun url_cells =>
  data.getLast?.bind fun last_row =>
  (last_row.get? req_index).bind fun req_cell =>
  (last_row.get? today_index).bind fun today_cell =>
  (last_row.get? month_index).bind fun month_cell =>
  (last_row.get? last_index).bind fun last_cell =>
  some { posted_articles := url_cells.filter (fun u => !u.isEmpty)
         news_api_requests := parseCounter req_cell
         tweets_today := parseCounter today_cell
         tweets_this_month := parseCounter month_cell
         last_tweet_time := if last_cell.isEmpty then none else some last_cell }

/-- Model of `load_data()` from the source, as a function of the sheet contents
(`all_data = sheet.get_all_values()`).  An empty sheet and a header-only
sheet both yield the zero state (the header-initialization side effect is
not part of the returned state); otherwise the rows after the header are
processed, falling back to the zero state if anything raises. -/
def load_data (all_data : List (List Str)) : BotData Str :=
  match all_data with
  | [] => zeroLoaded
  | headers :: data =>
    if data.isEmpty then zeroLoaded
    else (load_core headers data).getD zeroLoaded

/-- The monthly NewsAPI gate tested at the top of `get_news`
(`data['news_api_requests'] >= 1000` denies). -/
def can_fetch {τ : Type} (d : BotData τ) : Bool :=
  if d.news_api_requests ≥ 1000 then false else true

/-- Model of `get_news(data)`: the provider call is modelled by its outcome
(`some articles` on success, `none` when `get_everything` raises).  Returns
the response, the updated state, and whether the provider was called. -/
def get_news {τ : Type} (d : BotData τ) (provider : Option (List Article)) :
    Option (List Article) × BotData τ × Bool :=
  if can_fetch d then
    match provider with
    | some all_articles =>
      (some all_articles,
       { d with news_api_requests := d.news_api_requests + 1 }, true)
    | none => (none, d, true)
  else
    (none, d, false)

/-- The lazy window rollover at the top of `post_tweet` (lines 229-236):
when a last tweet time exists, a differing `date()` zeroes `tweets_today`
and a differing `.month` number zeroes `tweets_this_month`. -/
def rollover (d : BotData DT) (now : DT) : BotData DT :=
  match d.last_tweet_time with
  | none => d
  | some last_tweet =>
    let d1 := if now.date ≠ last_tweet.date then { d with tweets_today := 0 } else d
    if now.month ≠ last_tweet.month then { d1 with tweets_this_month := 0 } else d1

/-- The daily/monthly posting gate of `post_tweet` (lines 238-243):
`tweets_today >= 50` or `tweets_this_month >= 1500` denies. -/
def can_post {τ : Type} (d : BotData τ) : Bool :=
  if d.tweets_today ≥ 50 then false
  else if d.tweets_this_month ≥ 1500 then false
  else true

/-- Model of `post_tweet(tweet_text, data, client)`: rollover, gates, empty-text
check, then the publish attempt, whose outcome is modelled by `publishOk`.
Returns the success flag, the updated state, and whether the publisher
(`client.create_tweet`) was called. -/
def post_tweet (tweet_text : Option Str) (d : BotData DT) (now : DT)
    (publishOk : Bool) : Bool × BotData DT × Bool :=
  let d := rollover d now
  if can_post d then
    if (tweet_text.getD []).isEmpty then (false, d, false)
    else if publishOk then
      (true,
       { d with tweets_today := d.tweets_today + 1,
                tweets_this_month := d.tweets_this_month + 1,
                last_tweet_time := some now }, true)
    else (false, d, true)
  else (false, d, false)

/-- Python `s.strip()`: drop leading and trailing whitespace. -/
def strip (s : Str) : Str :=
  ((s.dropWhile Char.isWhitespace).reverse.dropWhile Char.isWhitespace).reverse

/-- The final hard truncation of `create_tweet_text`:
text over 280 code points becomes its first 277 plus an ellipsis. -/
def truncate_tweet (t : Str) : Str :=
  if t.length > 280 then t.take 277 ++ str "..." else t

/-- Composition of the tweet body for one selected article.  The spaCy-based
`summarize_text` and `generate_hashtags` steps are external NLP services in
the spec's model and are passed in as functions of the same `full_text`. -/
def compose_from_article (summarizer : Str → Str) (tagger : Str → List Str)
    (article : Article) : Str :=
  let full_text := strip article.title ++ str ". " ++ strip article.description
  let summary := summarizer full_text
  let hashtags := tagger full_text
  truncate_tweet (summary ++ str "\n" ++ article.url ++ str "\n"
    ++ List.intercalate (str " ") hashtags)

/-- The selection loop of `create_tweet_text`: scan candidates in provider
order and keep the first one passing `is_valid_article`. -/
def select_article (posted_articles : List Str) : List Article → Option Article
  | [] => none
  | article :: rest =>
    if is_valid_article article posted_articles then some article
    else select_article posted_articles rest

/-- Model of `create_tweet_text(all_articles, posted_articles)`: `none` input models a
falsy response or one without an `articles` key; otherwise the first valid
article is composed and returned together with its url, and the absence of
any valid article yields `(none, none)`. -/
def create_tweet_text (summarizer : Str → Str) (tagger : Str → List Str)
    (all_articles : Option (List Article)) (posted_articles : List Str) :
    Option Str × Option Str :=
  match all_articles with
  | none => (none, none)
  | some articles =>
    match select_article posted_articles articles with
    | none => (none, none)
    | some article =>
      (some (compose_from_article summarizer tagger article), some article.url)

/-- Outcome of one orchestrated cycle of `main()`: whether `save_data`
appended a row, whether `client.create_tweet` was called, and the final
in-memory state. -/
structure CycleResult where
  appended : Bool
  publisherCalled : Bool
  data : BotData DT
deriving DecidableEq

/-- One cycle of `main()` starting from a loaded state `d`: fetch, compose,
and `if tweet_text and post_tweet(...): save_data(...)`.  The provider
response, the NLP services, the publish outcome and the clock are explicit
inputs. -/
def run_cycle (d : BotData DT) (provider : Option (List Article))
    (summarizer : Str → Str) (tagger : Str → List Str)
    (publishOk : Bool) (now : DT) : CycleResult :=
  let fetched := get_news d provider
  match fetched.1 with
  | none => { appended := false, publisherCalled := false, data := fetched.2.1 }
  | some articles =>
    let composed := create_tweet_text summarizer tagger (some articles)
      fetched.2.1.posted_articles
    match composed.1 with
    | none => { appended := false, publisherCalled := false, data := fetched.2.1 }
    | some t =>
      if t.isEmpty then
        { appended := false, publisherCalled := false, data := fetched.2.1 }
      else
        let posted := post_tweet (some t) fetched.2.1 now publishOk
        { appended := posted.1, publisherCalled := posted.2.2, data := posted.2.1 }

/-! ## Helper lemmas -/

theorem select_eq_find (posted : List Str) (articles : List Article) :
    select_article posted articles
      = articles.find? fun a => is_valid_article a posted := by
  induction articles with
  | nil => rfl
  | cons a rest ih =>
    by_cases hv : is_valid_article a posted <;>
      simp [select_article, List.find?_cons, hv, ih]

theorem valid_url_not_posted {a : Article} {posted : List Str}
    (h : is_valid_article a posted = true) : posted.contains a.url = false := by
  cases hcon : posted.contains a.url with
  | false => rfl
  | true =>
    exfalso
    unfold is_valid_article at h
    rw [hcon] at h
    simp at h

theorem parseCounter_nonneg (s : Str) : 0 ≤ parseCounter s := by
  unfold parseCounter
  split <;> omega

theorem load_core_counters {headers : List Str} {data : List (List Str)}
    {st : BotData Str} (h : load_core headers data = some st) :
    ∃ last_row ri ti mi req_cell today_cell month_cell,
      data.getLast? = some last_row ∧
      headers.indexOf? (str "news_api_requests") = some ri ∧
      headers.indexOf? (str "tweets_today") = some ti ∧
      headers.indexOf? (str "tweets_this_month") = some mi ∧
      last_row.get? ri = some req_cell ∧
      last_row.get? ti = some today_cell ∧
      last_row.get? mi = some month_cell ∧
      st.news_api_requests = parseCounter req_cell ∧
      st.tweets_today = parseCounter today_cell ∧
      st.tweets_this_month = parseCounter month_cell := by
  unfold load_core at h
  simp only [Option.bind_eq_some, Option.some.injEq] at h
  obtain ⟨ui, hu, ri, hr, ti, ht, mi, hm, li, hl, cells, hc, last_row, hlast,
    rc, hrc, tc, htc, mc, hmc, lc, hlc, hst⟩ := h
  subst hst
  exact ⟨last_row, ri, ti, mi, rc, tc, mc, hlast, hr, ht, hm, hrc, htc, hmc,
    rfl, rfl, rfl⟩

theorem load_data_nonneg (all_data : List (List Str)) :
    0 ≤ (load_data all_data).news_api_requests ∧
    0 ≤ (load_data all_data).tweets_today ∧
    0 ≤ (load_data all_data).tweets_this_month := by
  cases all_data with
  | nil => simp [load_data, zeroLoaded]
  | cons headers data =>
    simp only [load_data]
    by_cases hd : data.isEmpty
    · simp [hd, zeroLoaded]
    · simp only [if_neg hd]
      cases hcore : load_core headers data with
      | none => simp [zeroLoaded]
      | some st =>
        simp only [Option.getD_some]
        obtain ⟨_, _, _, _, rc, tc, mc, _, _, _, _, _, _, _, h1, h2, h3⟩ :=
          load_core_counters hcore
        rw [h1, h2, h3]
        exact ⟨parseCounter_nonneg _, parseCounter_nonneg _, parseCounter_nonneg _⟩

theorem get_news_state_fields {τ : Type} (d : BotData τ)
    (provider : Option (List Article)) :
    ((get_news d provider).2.1).posted_articles = d.posted_articles ∧
    ((get_news d provider).2.1).tweets_today = d.tweets_today ∧
    ((get_news d provider).2.1).tweets_this_month = d.tweets_this_month ∧
    ((get_news d provider).2.1).last_tweet_time = d.last_tweet_time := by
  unfold get_news
  cases provider <;> split <;> simp

theorem rollover_fields (d : BotData DT) (now : DT) :
    (rollover d now).tweets_today
        = (match d.last_tweet_time with
           | none => d.tweets_today
           | some last_tweet =>
             if now.date ≠ last_tweet.date then 0 else d.tweets_today) ∧
    (rollover d now).tweets_this_month
        = (match d.last_tweet_time with
           | none => d.tweets_this_month
           | some last_tweet =>
             if now.month ≠ last_tweet.month then 0 else d.tweets_this_month) ∧
    (rollover d now).posted_articles = d.posted_articles ∧
    (rollover d now).news_api_requests = d.news_api_requests ∧
    (rollover d now).last_tweet_time = d.last_tweet_time := by
  unfold rollover
  cases hl : d.last_tweet_time with
  | none => simp [hl]
  | some last_tweet =>
    by_cases h1 : now.date ≠ last_tweet.date <;>
      by_cases h2 : now.month ≠ last_tweet.month <;>
        simp [h1, h2, hl]

theorem rollover_gate_congr (d d' : BotData DT) (now : DT)
    (htt : d'.tweets_today = d.tweets_today)
    (htm : d'.tweets_this_month = d.tweets_this_month)
    (hlt : d'.last_tweet_time = d.last_tweet_time) :
    can_post (rollover d' now) = can_post (rollover d now) := by
  obtain ⟨f1, f2, -, -, -⟩ := rollover_fields d now
  obtain ⟨g1, g2, -, -, -⟩ := rollover_fields d' now
  unfold can_post
  simp only [f1, f2, g1, g2, htt, htm, hlt]

theorem post_tweet_success {tweet_text : Option Str} {d : BotData DT} {now : DT}
    {publishOk : Bool} (h : (post_tweet tweet_text d now publishOk).1 = true) :
    publishOk = true ∧ (post_tweet tweet_text d now publishOk).2.2 = true := by
  simp only [post_tweet] at h ⊢
  split_ifs at h ⊢
  all_goals simp_all


theorem post_tweet_gate {tweet_text : Option Str} {d : BotData DT} {now : DT}
    {publishOk : Bool} (h : can_post (rollover d now) = false) :
    post_tweet tweet_text d now publishOk = (false, rollover d now, false) := by
  simp only [post_tweet]
  rw [h]
  simp

theorem post_tweet_pubfail (tweet_text : Option Str) (d : BotData DT) (now : DT) :
    (post_tweet tweet_text d now false).1 = false := by
  simp only [post_tweet]
  split_ifs <;> simp_all

/-! ## Claims -/

/-- C1 counterexample: the last post is in January 2023 and now is January
2024 — two different calendar months (the years differ) — yet the rollover
step leaves `tweets_this_month` at 7 instead of resetting it, because the
source compares only the month-of-year numbers. -/
theorem C1_counterexample :
    ((2024 : Int), (1 : Int)) ≠ ((2023 : Int), (1 : Int)) ∧
    (⟨[], 0, 3, 7, some ⟨2023, 1, 15, 10, 0, 0⟩⟩ : BotData DT).last_tweet_time
        = some ⟨2023, 1, 15, 10, 0, 0⟩ ∧
    (rollover (⟨[], 0, 3, 7, some ⟨2023, 1, 15, 10, 0, 0⟩⟩ : BotData DT)
        ⟨2024, 1, 15, 11, 0, 0⟩).tweets_this_month = 7 := by
  decide

/-- C1 (amended): for every state with a non-empty `lastPostTimestamp`, the
rollover step resets `tweetsToday` to 0 exactly when the `(year, month, day)`
calendar date of `now` differs from that of the last post, and resets
`tweetsThisMonth` to 0 exactly when the month-of-year NUMBER differs — the
year is ignored by the month check, so the same month number in different
years does not trigger the monthly reset.  The two checks are independent
and no other field is changed. -/
theorem C1_amended (d : BotData DT) (last_tweet now : DT)
    (h : d.last_tweet_time = some last_tweet) :
    (rollover d now).tweets_today
        = (if now.date ≠ last_tweet.date then 0 else d.tweets_today) ∧
    (rollover d now).tweets_this_month
        = (if now.month ≠ last_tweet.month then 0 else d.tweets_this_month) ∧
    (rollover d now).posted_articles = d.posted_articles ∧
    (rollover d now).news_api_requests = d.news_api_requests ∧
    (rollover d now).last_tweet_time = d.last_tweet_time := by
  obtain ⟨f1, f2, f3, f4, f5⟩ := rollover_fields d now
  rw [h] at f1 f2
  exact ⟨f1, f2, f3, f4, f5⟩

/-- C1 witness: a concrete state whose last post was on 2023-01-15 and a
clock at 2024-02-16; the date differs so the daily counter is reset. -/
theorem C1_witness :
    (⟨[], 0, 3, 7, some ⟨2023, 1, 15, 10, 0, 0⟩⟩ : BotData DT).last_tweet_time
        = some ⟨2023, 1, 15, 10, 0, 0⟩ ∧
    (rollover (⟨[], 0, 3, 7, some ⟨2023, 1, 15, 10, 0, 0⟩⟩ : BotData DT)
        ⟨2024, 2, 16, 11, 0, 0⟩).tweets_today = 0 :=
  ⟨rfl, by
    have h := C1_amended (⟨[], 0, 3, 7, some ⟨2023, 1, 15, 10, 0, 0⟩⟩ : BotData DT)
      ⟨2023, 1, 15, 10, 0, 0⟩ ⟨2024, 2, 16, 11, 0, 0⟩ rfl
    rw [h.1]
    decide⟩

/-- C2 counterexample: a store whose last data row records
`tweets_today = 5` and `tweets_this_month = 2` loads into a state violating
`tweetsToday ≤ tweetsThisMonth`: `load_data` parses the two counters
independently and never enforces the invariant. -/
theorem C2_counterexample :
    ¬ ((load_data [expected_headers,
          [str "u", str "t", str "0", str "5", str "2", str ""]]).tweets_today
        ≤ (load_data [expected_headers,
          [str "u", str "t", str "0", str "5", str "2", str ""]]).tweets_this_month) := by
  decide

/-- C2 (amended): the loaded state satisfies
`tweetsToday ≤ tweetsThisMonth` for every store whose last data row, read at
the header-derived column positions, has a parsed `tweets_today` cell that is
at most its parsed `tweets_this_month` cell (in particular, for every store
written only by the system itself); it does not hold for arbitrary counter
values in the last row. -/
theorem C2_amended (all_data : List (List Str))
    (h : ∀ headers data last_row ti mi today_cell month_cell,
        all_data = headers :: data →
        data.getLast? = some last_row →
        headers.indexOf? (str "tweets_today") = some ti →
        headers.indexOf? (str "tweets_this_month") = some mi →
        last_row.get? ti = some today_cell →
        last_row.get? mi = some month_cell →
        parseCounter today_cell ≤ parseCounter month_cell) :
    (load_data all_data).tweets_today ≤ (load_data all_data).tweets_this_month := by
  cases all_data with
  | nil => simp [load_data, zeroLoaded]
  | cons headers data =>
    simp only [load_data]
    by_cases hd : data.isEmpty
    · simp [hd, zeroLoaded]
    · simp only [if_neg hd]
      cases hcore : load_core headers data with
      | none => simp [zeroLoaded]
      | some st =>
        simp only [Option.getD_some]
        obtain ⟨last_row, _, ti, mi, _, today_cell, month_cell,
          hlast, _, hti, hmi, _, htd, htm, _, h2, h3⟩ := load_core_counters hcore
        rw [h2, h3]
        exact h headers data last_row ti mi today_cell month_cell rfl hlast hti hmi htd htm

/-- C2 witness: a store with the expected header and one row whose last-row
counters are `tweets_today = 2 ≤ tweets_this_month = 5`. -/
theorem C2_witness :
    (load_data [expected_headers,
        [str "u", str "t", str "3", str "2", str "5", str ""]]).tweets_today
      ≤ (load_data [expected_headers,
        [str "u", str "t", str "3", str "2", str "5", str ""]]).tweets_this_month := by
  apply C2_amended
  intro headers data last_row ti mi today_cell month_cell heq hlast hti hmi htd htm
  injection heq with h1 h2
  subst h1; subst h2
  rw [show ([[str "u", str "t", str "3", str "2", str "5", str ""]] :
      List (List Str)).getLast? = some [str "u", str "t", str "3", str "2", str "5", str ""]
    from by decide] at hlast
  injection hlast with hlast; subst hlast
  rw [show expected_headers.indexOf? (str "tweets_today") = some 3 from by decide] at hti
  injection hti with hti; subst hti
  rw [show expected_headers.indexOf? (str "tweets_this_month") = some 4 from by decide] at hmi
  injection hmi with hmi; subst hmi
  rw [show ([str "u", str "t", str "3", str "2", str "5", str ""] : List Str).get? 3
      = some (str "2") from by decide] at htd
  injection htd with htd; subst htd
  rw [show ([str "u", str "t", str "3", str "2", str "5", str ""] : List Str).get? 4
      = some (str "5") from by decide] at htm
  injection htm with htm; subst htm
  decide

/-- C9: a counter cell that is not a plain digit string is defensively
parsed as 0, and for every store contents whatsoever the counters of the
loaded state are non-negative integers (the load never fails: `load_data`
is total and falls back to the zero state when row processing raises). -/
theorem C9_thm (all_data : List (List Str)) (s : Str)
    (h : isDigitStr s = false) :
    parseCounter s = 0 ∧
    0 ≤ (load_data all_data).news_api_requests ∧
    0 ≤ (load_data all_data).tweets_today ∧
    0 ≤ (load_data all_data).tweets_this_month := by
  refine ⟨?_, load_data_nonneg all_data⟩
  unfold parseCounter
  rw [h]
  simp

/-- C9 witness: the malformed cell `12a` parses to 0 on the empty store. -/
theorem C9_witness :
    isDigitStr (str "12a") = false ∧
    (parseCounter (str "12a") = 0 ∧
     0 ≤ (load_data []).news_api_requests ∧
     0 ≤ (load_data []).tweets_today ∧
     0 ≤ (load_data []).tweets_this_month) :=
  ⟨by decide, C9_thm [] (str "12a") (by decide)⟩

/-- C3: the fetch gate denies exactly when `newsApiRequestsThisMonth ≥ 1000`
and the post gate denies exactly when `tweetsToday ≥ 50` or
`tweetsThisMonth ≥ 1500`; in all other cases both gates permit. -/
theorem C3_thm (d : BotData DT) :
    (can_fetch d = false ↔ d.news_api_requests ≥ 1000) ∧
    (can_post d = false ↔ (d.tweets_today ≥ 50 ∨ d.tweets_this_month ≥ 1500)) := by
  constructor
  · unfold can_fetch
    split <;> simp_all
  · unfold can_post
    split_ifs with h1 h2 <;> simp_all

/-- C4: composed text of more than 280 code points is truncated to exactly
280 code points of the shape `p ++ "..."` where `p` is a prefix of the
untruncated text (its first 277 code points); text of at most 280 code
points is left unchanged. -/
theorem C4_thm (t : Str) :
    (280 < t.length →
      (truncate_tweet t).length = 280 ∧
      ∃ p r, t = p ++ r ∧ truncate_tweet t = p ++ str "...") ∧
    (t.length ≤ 280 → truncate_tweet t = t) := by
  constructor
  · intro h
    unfold truncate_tweet
    rw [if_pos (by omega)]
    constructor
    · rw [List.length_append, List.length_take]
      have h3 : (str "...").length = 3 := by decide
      omega
    · exact ⟨t.take 277, t.drop 277, (List.take_append_drop 277 t).symm, rfl⟩
  · intro h
    unfold truncate_tweet
    rw [if_neg (by omega)]

set_option maxRecDepth 8000 in
/-- C4 witness: 281 copies of `a` truncate to 280 code points of the stated
shape; the bound `280 < length` is discharged concretely. -/
theorem C4_witness :
    280 < (List.replicate 281 'a').length ∧
    ((truncate_tweet (List.replicate 281 'a')).length = 280 ∧
     ∃ p r, List.replicate 281 'a' = p ++ r ∧
       truncate_tweet (List.replicate 281 'a') = p ++ str "...") :=
  ⟨by decide, (C4_thm (List.replicate 281 'a')).1 (by decide)⟩

/-- C7: the lazy rollover step is idempotent — applying it twice with the
same clock value gives the same state as applying it once. -/
theorem C7_thm (d : BotData DT) (now : DT) :
    rollover (rollover d now) now = rollover d now := by
  cases d with
  | mk pa req tt tm ltt =>
    cases ltt with
    | none => rfl
    | some last_tweet =>
      by_cases h1 : now.date ≠ last_tweet.date <;>
        by_cases h2 : now.month ≠ last_tweet.month <;>
          simp [rollover, h1, h2]

/-- C8: when the fetch gate denies, `get_news` returns the empty outcome
without calling the provider and without touching the state; on a successful
provider query — including one returning zero articles — it increments
`newsApiRequestsThisMonth` by exactly one; on a provider error it returns
the empty outcome with the state unchanged. -/
theorem C8_thm (d : BotData DT) (provider : Option (List Article)) :
    (d.news_api_requests ≥ 1000 → get_news d provider = (none, d, false)) ∧
    (d.news_api_requests < 1000 → ∀ articles, provider = some articles →
        get_news d provider
          = (some articles,
             { d with news_api_requests := d.news_api_requests + 1 }, true)) ∧
    (d.news_api_requests < 1000 → provider = none →
        get_news d provider = (none, d, true)) := by
  refine ⟨fun h => ?_, fun h articles hp => ?_, fun h hp => ?_⟩
  · have hcf : can_fetch d = false := by
      unfold can_fetch
      rw [if_pos h]
    unfold get_news
    rw [hcf]
    simp
  · subst hp
    have hcf : can_fetch d = true := by
      unfold can_fetch
      rw [if_neg (by omega)]
    unfold get_news
    rw [hcf]
    simp
  · subst hp
    have hcf : can_fetch d = true := by
      unfold can_fetch
      rw [if_neg (by omega)]
    unfold get_news
    rw [hcf]
    simp

/-- C8 witness: a fresh state under quota with a provider returning zero
articles — the request counter still goes from 0 to 1. -/
theorem C8_witness :
    ((0 : Int) < 1000) ∧
    get_news (⟨[], 0, 0, 0, none⟩ : BotData DT) (some [])
      = (some [], (⟨[], 1, 0, 0, none⟩ : BotData DT), true) :=
  ⟨by decide,
   ((C8_thm (⟨[], 0, 0, 0, none⟩ : BotData DT) (some [])).2.1 (by decide) []
     rfl).trans (by decide)⟩

/-- C10: `get_news` modifies at most the request counter — the posted-url
set, both tweet counters and the last tweet time are unchanged in every
outcome (quota denial, provider success, provider error). -/
theorem C10_thm {τ : Type} (d : BotData τ) (provider : Option (List Article)) :
    ((get_news d provider).2.1).posted_articles = d.posted_articles ∧
    ((get_news d provider).2.1).tweets_today = d.tweets_today ∧
    ((get_news d provider).2.1).tweets_this_month = d.tweets_this_month ∧
    ((get_news d provider).2.1).last_tweet_time = d.last_tweet_time :=
  get_news_state_fields d provider

/-- C6: selection returns exactly the first article in provider order that
passes `is_valid_article` (its url is reported); the returned url is never
one already in the posted set; and when no candidate is valid the result is
the normal empty outcome `(none, none)` rather than an error. -/
theorem C6_thm (summarizer : Str → Str) (tagger : Str → List Str)
    (articles : List Article) (posted : List Str) :
    ((create_tweet_text summarizer tagger (some articles) posted).2
        = (articles.find? fun a => is_valid_article a posted).map Article.url) ∧
    (∀ u, (create_tweet_text summarizer tagger (some articles) posted).2 = some u →
        posted.contains u = false) ∧
    ((∀ a ∈ articles, is_valid_article a posted = false) →
        create_tweet_text summarizer tagger (some articles) posted = (none, none)) := by
  have hsel := select_eq_find posted articles
  refine ⟨?_, ?_, ?_⟩
  · simp only [create_tweet_text]
    rw [hsel]
    cases hf : articles.find? (fun a => is_valid_article a posted) <;> simp
  · intro u hu
    simp only [create_tweet_text] at hu
    cases hs : select_article posted articles with
    | none => rw [hs] at hu; simp at hu
    | some a =>
      rw [hs] at hu
      simp at hu
      subst hu
      have hv : is_valid_article a posted = true := by
        rw [hsel] at hs
        have hfind := List.find?_some hs
        simpa using hfind
      exact valid_url_not_posted hv
  · intro hall
    have hnone : articles.find? (fun a => is_valid_article a posted) = none :=
      List.find?_eq_none.mpr (fun x hx => by simp [hall x hx])
    simp only [create_tweet_text]
    rw [hsel, hnone]

/-- C6 witness: of two candidates the first has an empty description, the
second is valid and unposted; selection returns the second's url, which is
not in the posted set. -/
theorem C6_witness :
    (create_tweet_text (fun s => s) (fun _ => [])
        (some [⟨str "A", [], str "C", str "u1"⟩, ⟨str "T", str "D", str "C", str "u2"⟩])
        [str "u0"]).2 = some (str "u2") ∧
    ([str "u0"] : List Str).contains (str "u2") = false :=
  ⟨by decide,
   (C6_thm (fun s => s) (fun _ => [])
      [⟨str "A", [], str "C", str "u1"⟩, ⟨str "T", str "D", str "C", str "u2"⟩]
      [str "u0"]).2.1 (str "u2") (by decide)⟩

/-- C5: in every orchestrated cycle, a row is appended only after a
successful publish (an appended row implies the publish call happened and
succeeded); a failed publish leaves the store unchanged; when the post gate
denies, neither the publisher nor the append is invoked; and an empty or
missing tweet text also produces no publish call and no append. -/
theorem C5_thm (d : BotData DT) (provider : Option (List Article))
    (summarizer : Str → Str) (tagger : Str → List Str) (publishOk : Bool)
    (now : DT) :
    ((run_cycle d provider summarizer tagger publishOk now).appended = true →
        publishOk = true ∧
        (run_cycle d provider summarizer tagger publishOk now).publisherCalled = true) ∧
    (publishOk = false →
        (run_cycle d provider summarizer tagger publishOk now).appended = false) ∧
    (can_post (rollover d now) = false →
        (run_cycle d provider summarizer tagger publishOk now).publisherCalled = false ∧
        (run_cycle d provider summarizer tagger publishOk now).appended = false) ∧
    (((create_tweet_text summarizer tagger (get_news d provider).1
          d.posted_articles).1.getD []).isEmpty = true →
        (run_cycle d provider summarizer tagger publishOk now).publisherCalled = false ∧
        (run_cycle d provider summarizer tagger publishOk now).appended = false) := by
  obtain ⟨hpa, htt, htm, hlt⟩ := get_news_state_fields d provider
  have hgate := rollover_gate_congr d ((get_news d provider).2.1) now htt htm hlt
  simp only [run_cycle]
  cases hA : (get_news d provider).1 with
  | none => simp
  | some arts =>
    dsimp only
    rw [hpa]
    generalize hC : (create_tweet_text summarizer tagger (some arts)
        d.posted_articles).1 = composed
    cases composed with
    | none => simp
    | some tt =>
      dsimp only
      by_cases he : tt.isEmpty = true
      · simp [he]
      · simp only [Option.getD_some, he, if_neg he]
        refine ⟨?_, ?_, ?_, ?_⟩
        · intro hap
          exact post_tweet_success hap
        · intro hpf
          subst hpf
          exact post_tweet_pubfail _ _ _
        · intro hg
          have hpt := @post_tweet_gate (some tt) ((get_news d provider).2.1) now
            publishOk (hgate.trans hg)
          simp only [hpt]
          exact ⟨rfl, rfl⟩
        · intro h4
          simp at h4

/-- C5 witness: a state at the daily limit (50 tweets today) with a valid
candidate article — the cycle calls no publisher and appends nothing. -/
theorem C5_witness :
    can_post (rollover (⟨[], 0, 50, 60, none⟩ : BotData DT) ⟨2024, 1, 1, 0, 0, 0⟩)
        = false ∧
    ((run_cycle (⟨[], 0, 50, 60, none⟩ : BotData DT)
        (some [⟨str "T", str "D", str "C", str "u2"⟩])
        (fun s => s) (fun _ => []) true ⟨2024, 1, 1, 0, 0, 0⟩).publisherCalled = false ∧
     (run_cycle (⟨[], 0, 50, 60, none⟩ : BotData DT)
        (some [⟨str "T", str "D", str "C", str "u2"⟩])
        (fun s => s) (fun _ => []) true ⟨2024, 1, 1, 0, 0, 0⟩).appended = false) :=
  ⟨by decide,
   (C5_thm (⟨[], 0, 50, 60, none⟩ : BotData DT)
      (some [⟨str "T", str "D", str "C", str "u2"⟩])
      (fun s => s) (fun _ => []) true ⟨2024, 1, 1, 0, 0, 0⟩).2.2.1 (by decide)⟩

end WpaNews
